import Mathlib

/-!
Verification of the concurrent directory-state synchronization core of the
`filez` terminal file browser (src/main.rs), against its natural-language
specification.  Paths (Rust `PathBuf`) are modeled as their lists of
components, so `pop` is `dropLast` and `push` appends a component; the
filesystem is an oracle mapping a path to `none` (unreadable: `read_dir`
returned `Err`) or to the enumerated children in filesystem order.
-/

namespace Filez

/-- Model of `PathBuf`: the list of path components.  `PathBuf::pop` drops the
last component, `PathBuf::push` appends one, and `PathBuf::from("")` is the
empty list.  Equality of paths models the `to_str()` string comparisons of
the source. -/
abbrev FPath := List String

/-- Model of `FileStat` (src/main.rs:120-175): bit flags in `typ`
(TYPE_FILE = 1, TYPE_DIR = 2), the full path rendered as a string, and the
final path component. -/
structure FileStat where
  typ : Nat
  path : String
  file_name : String
deriving DecidableEq

def FileStat.TYPE_FILE : Nat := 1

def FileStat.TYPE_DIR : Nat := 2

/-- Model of `FileStat::is_dir` (src/main.rs:147-149): `(typ & TYPE_DIR) != 0`. -/
def FileStat.is_dir (f : FileStat) : Bool := f.typ &&& FileStat.TYPE_DIR != 0

/-- Model of `FileStat::is_file` (src/main.rs:151-153): `(typ & TYPE_FILE) != 0`. -/
def FileStat.is_file (f : FileStat) : Bool := f.typ &&& FileStat.TYPE_FILE != 0

/-- Model of the shared `FileWatcher` record (src/main.rs:177-182): `path` is
the UI-requested target directory, `path2` the path the poller most recently
finished publishing (the acknowledged path), `filez` the most recently
published listing.  In the source each field sits behind its own
`Arc<Mutex<_>>`, so each single-field read or write is individually atomic,
and nothing larger is. -/
structure FileWatcher where
  path : FPath
  path2 : FPath
  filez : List FileStat
deriving DecidableEq

/-- Model of `FileWatcher::new` (src/main.rs:185-191): `path` comes from the
optional command-line argument, defaulting to the current directory; `path2`
starts as the empty path (`PathBuf::from("")`); `filez` starts as the empty
vector (`Arc::default()`). -/
def FileWatcher.new (arg : Option FPath) (cwd : FPath) : FileWatcher :=
  { path := arg.getD cwd, path2 := [], filez := [] }

/-- Model of `FileWatcher::set_path` (src/main.rs:196-198): apply a mutating
function to the target path under its own lock; `path2` and `filez` are not
touched. -/
def FileWatcher.set_path (s : FileWatcher) (g : FPath → FPath) : FileWatcher :=
  { s with path := g s.path }

/-- Filesystem oracle: `none` models `fs::read_dir` returning `Err`
(unreadable directory), `some l` the children that enumerated `Ok`, in
filesystem enumeration order (src/main.rs:263-269). -/
abbrev Fs := FPath → Option (List FileStat)

/-- Model of the comparator closure passed to `sort_by` at src/main.rs:270:
`b.is_dir().partial_cmp(&a.is_dir()).unwrap()`, i.e. compare `b.is_dir()`
against `a.is_dir()` (on `bool`, `false < true`, and `partial_cmp` never
returns `None`). -/
def fsCmp (a b : FileStat) : Ordering := compare b.is_dir a.is_dir

/-- Under a stable sort, element `a` stays before `b` whenever the
comparator does not order `a` strictly after `b`. -/
def fsLe (a b : FileStat) : Bool := !(fsCmp a b == Ordering.gt)

/-- Stable insertion step: `x` is placed in front of the first element it is
less-or-equal to; elements already in the list that tie with `x` and were
inserted earlier (hence came later in the original slice) stay behind `x`. -/
def sortInsert (x : FileStat) : List FileStat → List FileStat
  | [] => [x]
  | y :: ys => if fsLe x y then x :: y :: ys else y :: sortInsert x ys

/-- Model of `filez.sort_by(...)` at src/main.rs:270.  `Vec::sort_by` is a
stable sort; stable insertion sort over the same comparator produces the
identical result list. -/
def sortFilez (l : List FileStat) : List FileStat := l.foldr sortInsert []

/-- Model of one scan of one poll cycle (src/main.rs:261-270): read the
target directory, collecting nothing when `read_dir` fails, then sort. -/
def pollScan (fs : Fs) (p : FPath) : List FileStat := sortFilez ((fs p).getD [])

/-- First critical section of a publish (src/main.rs:271, `set_filez`):
write the freshly scanned listing; holds only the `filez` lock. -/
def pollBegin (fs : Fs) (s : FileWatcher) : FileWatcher :=
  { s with filez := pollScan fs s.path }

/-- Second critical section of a publish (src/main.rs:272, `set_path2`):
write the acknowledged path `p` that was captured at the start of the cycle;
holds only the `path2` lock. -/
def pollEnd (p : FPath) (s : FileWatcher) : FileWatcher :=
  { s with path2 := p }

/-- Model of one full poll cycle of the background thread
(src/main.rs:259-273): capture the target path, scan, publish the listing,
then publish the acknowledged path. -/
def pollCycle (fs : Fs) (s : FileWatcher) : FileWatcher :=
  pollEnd s.path (pollBegin fs s)

/-- States a concurrent reader can observe during one poll cycle: before the
publish, between the two critical sections, and after both.  Each read in
the UI loop takes one lock, so it can run at any of these three points. -/
def pollObservations (fs : Fs) (s : FileWatcher) : List FileWatcher :=
  [s, pollBegin fs s, pollEnd s.path (pollBegin fs s)]

/-- Model of the guard of the convergence wait at src/main.rs:357 and :384:
`while file_watcher.path2().to_str() == old_path.to_str() { }`.  The spin
loop can exit exactly in a state where the acknowledged path differs from
the captured old path. -/
def waitExits (old : FPath) (s : FileWatcher) : Bool := s.path2 != old

/-- Model of the per-directory `View` record (src/main.rs:216-221). -/
structure View where
  selected : Int
  scroll : Int
deriving DecidableEq

/-- Rust `i32::clamp(lo, hi)` (requires `lo ≤ hi`, which holds at the one
call site since the listing is nonempty there). -/
def i32Clamp (x lo hi : Int) : Int := if x < lo then lo else if hi < x then hi else x

/-- Model of src/main.rs:334:
`if filez.len() > 0 { selected = selected.clamp(0, filez.len() as i32 - 1); }` —
note the clamp runs only when the listing is nonempty. -/
def renderClamp (selected : Int) (len : Nat) : Int :=
  if 0 < len then i32Clamp selected 0 ((len : Int) - 1) else selected

/-- Closed form of the two scroll-adjusting while loops at
src/main.rs:336-341: the first increments `scroll` until
`selected ≤ maxY - 3 + scroll`, the second decrements it until
`scroll ≤ selected`. -/
def scrollAdjust (maxY selected scroll : Int) : Int :=
  let s1 := if maxY - 3 + scroll < selected then selected - (maxY - 3) else scroll
  if selected < s1 then selected else s1

/-- Model of `selected_hist : HashMap<String, View>` (src/main.rs:254) as its
lookup function; keys are the rendered paths. -/
abbrev Hist := FPath → Option View

/-- Model of `selected_hist.insert(path, View { selected, scroll })`
(src/main.rs:343): unconditional overwrite of the entry for that path. -/
def histInsert (h : Hist) (p : FPath) (v : View) : Hist :=
  fun q => if q = p then some v else h q

/-- The empty history, the state of `selected_hist` before any render pass. -/
def histEmpty : Hist := fun _ => none

/-- Model of the tail of each render pass (src/main.rs:334-343): clamp the
selection against the listing length, auto-scroll to keep it visible, then
save the resulting view into the history under the displayed path.  Returns
(new selected, new scroll, new history). -/
def renderPass (maxY : Int) (filez : List FileStat) (p : FPath)
    (selected scroll : Int) (h : Hist) : Int × Int × Hist :=
  let sel := renderClamp selected filez.length
  let scr := scrollAdjust maxY sel scroll
  (sel, scr, histInsert h p (View.mk sel scr))

/-- Model of the history-miss fallback closure (src/main.rs:358-373 and
:385-400): walk the freshly read listing and return `selected = scroll = i`
for the first index `i` whose entry name equals `oldName`
(`old_path.file_name()`), or `{0, 0}` when no entry matches. -/
def scanFallback (filez : List FileStat) (oldName : String) : View :=
  match filez.findIdx? (fun f => f.file_name == oldName) with
  | some i => View.mk i i
  | none => View.mk 0 0

/-- Model of `selected_hist.get(&path).copied().unwrap_or_else(|| ...)`
(src/main.rs:358 and :385): history hit restores the saved view verbatim,
miss falls back to the scan. -/
def resolveView (h : Hist) (newPath : FPath) (filez : List FileStat)
    (oldName : String) : View :=
  (h newPath).getD (scanFallback filez oldName)

/-- A spawned external command (src/main.rs:406): program name and its one
argument. -/
structure Launched where
  prog : String
  arg : String
deriving DecidableEq

/-- Outcome of one press of the Enter key (src/main.rs:377-409). -/
inductive EnterOutcome where
  | crash
  | descend (newTarget : FPath)
  | opened (cmd : Option Launched)
deriving DecidableEq

/-- Model of `file_watcher.filez()[selected as usize]` (src/main.rs:378):
indexing a `Vec` out of bounds panics; a negative `i32` cast `as usize`
wraps to a value far beyond any real listing length, so it panics too.
`none` models the panic. -/
def indexFilez (l : List FileStat) (selected : Int) : Option FileStat :=
  if selected < 0 then none else l.get? selected.toNat

/-- Model of the Enter-key handler (src/main.rs:377-409): index the freshly
re-read listing at the current selection (panicking when out of bounds); on
a directory, push its name onto the target path (the convergence wait and
view resolution follow); on a non-directory, spawn `explorer <path>` when
the compile-time OS is windows and do nothing at all otherwise. -/
def enterAction (os : String) (s : FileWatcher) (selected : Int) :
    EnterOutcome × FileWatcher :=
  match indexFilez s.filez selected with
  | none => (EnterOutcome.crash, s)
  | some f =>
    if f.is_dir then
      (EnterOutcome.descend (s.path ++ [f.file_name]),
        s.set_path (fun p => p ++ [f.file_name]))
    else
      (EnterOutcome.opened
        (if os = "windows" then some (Launched.mk "explorer" f.path) else none), s)

/-! Concrete example data reused by counterexamples and witnesses. -/

def entryDirA : FileStat := { typ := 2, path := "/root/dirA", file_name := "dirA" }

def entryDirB : FileStat := { typ := 2, path := "/root/dirB", file_name := "dirB" }

def entryFile1 : FileStat := { typ := 1, path := "/root/file1.txt", file_name := "file1.txt" }

/-- An entry inside a subdirectory that happens to carry the same name as the
directory the user navigated out of. -/
def entryRootName : FileStat := { typ := 2, path := "/root/dirA/root", file_name := "root" }

def fsC1 : Fs := fun p => if p = ["a"] then some [entryDirA] else none

def sC2 : FileWatcher := FileWatcher.mk ["n"] ["o"] [entryFile1]

def fsC2 : Fs := fun p => if p = ["n"] then some [entryDirA] else none

def sC9 : FileWatcher := FileWatcher.mk ["root"] ["root"] [entryFile1]

/-! Helper lemmas about the stable sort. -/

lemma fsLe_eq (x y : FileStat) : fsLe x y = (x.is_dir || !y.is_dir) := by
  unfold fsLe fsCmp
  cases hx : x.is_dir <;> cases hy : y.is_dir <;> simp [hx, hy] <;> decide

lemma sortInsert_app (x : FileStat) (ds gs : List FileStat)
    (hd : ∀ y ∈ ds, y.is_dir = true) (hg : ∀ y ∈ gs, y.is_dir = false) :
    sortInsert x (ds ++ gs) =
      if x.is_dir then x :: (ds ++ gs) else ds ++ x :: gs := by
  induction ds with
  | nil =>
    cases gs with
    | nil => cases hx : x.is_dir <;> simp [sortInsert]
    | cons y ys =>
      have hy : y.is_dir = false := hg y (List.mem_cons_self _ _)
      have hxy : fsLe x y = true := by rw [fsLe_eq, hy]; simp
      cases hx : x.is_dir <;> simp [sortInsert, hxy]
  | cons d ds ih =>
    have hdd : d.is_dir = true := hd d (List.mem_cons_self _ _)
    have hle : fsLe x d = x.is_dir := by rw [fsLe_eq, hdd]; simp
    have ih2 := ih (fun y hy => hd y (List.mem_cons_of_mem _ hy))
    cases hx : x.is_dir with
    | true =>
      rw [hx] at hle
      simp [sortInsert, hle]
    | false =>
      rw [hx] at hle
      rw [hx] at ih2
      simp only [List.cons_append, sortInsert, hle, if_false, Bool.false_eq_true,
        ite_false] at ih2 ⊢
      rw [List.append_eq, ih2]

lemma sortFilez_partition (l : List FileStat) :
    sortFilez l =
      l.filter (fun f => f.is_dir) ++ l.filter (fun f => !f.is_dir) := by
  induction l with
  | nil => rfl
  | cons a l ih =>
    have hd : ∀ y ∈ l.filter (fun f => f.is_dir), y.is_dir = true := by
      intro y hy
      simpa using (List.mem_filter.mp hy).2
    have hg : ∀ y ∈ l.filter (fun f => !f.is_dir), y.is_dir = false := by
      intro y hy
      simpa using (List.mem_filter.mp hy).2
    show sortInsert a (sortFilez l) = _
    rw [ih, sortInsert_app a _ _ hd hg]
    cases ha : a.is_dir <;> simp [List.filter_cons, ha]

/-- Claim C3: every entry list produced by a poll cycle is the stable
partition of the enumerated children: all directory entries first, then all
non-directory entries, each group in original filesystem enumeration order,
with no secondary sort applied. -/
theorem C3_poll_sorts_dirs_first (fs : Fs) (s : FileWatcher) :
    (pollCycle fs s).filez =
      ((fs s.path).getD []).filter (fun f => f.is_dir) ++
        ((fs s.path).getD []).filter (fun f => !f.is_dir) := by
  show sortFilez ((fs s.path).getD []) = _
  exact sortFilez_partition _

/-- Claim C4: when the target directory cannot be opened the poll cycle
publishes an empty entry list (the error does not propagate, the model is a
total function) and still publishes the acknowledged path for that cycle. -/
theorem C4_unreadable_empty (fs : Fs) (s : FileWatcher) (h : fs s.path = none) :
    (pollCycle fs s).filez = [] ∧ (pollCycle fs s).path2 = s.path := by
  refine ⟨?_, rfl⟩
  show sortFilez ((fs s.path).getD []) = []
  rw [h]
  rfl

/-- Claim C4 witness: a concrete everywhere-unreadable filesystem. -/
theorem C4_unreadable_empty_witness :
    (pollCycle (fun _ => none) (FileWatcher.mk ["a"] [] [entryDirA])).filez = [] ∧
      (pollCycle (fun _ => none) (FileWatcher.mk ["a"] [] [entryDirA])).path2 = ["a"] :=
  C4_unreadable_empty (fun _ => none) (FileWatcher.mk ["a"] [] [entryDirA]) rfl

/-- Claim C1 counterexample: the convergence wait does not block until the
acknowledged path equals the new target path.  Concrete scenario: at startup
`path2` is the empty path and `filez` is empty; the user at `a/b` ascends, so
the old path is `a/b` and the new target is `a` (with the filesystem `fsC1`
holding one entry under `a`).  The wait guard already allows exit (the empty
acknowledged path differs from `a/b`), yet the acknowledged path is not the
new target and the readable snapshot is not the listing of `a`. -/
theorem C1_wait_counterexample :
    waitExits ["a", "b"] (FileWatcher.mk ["a"] [] []) = true ∧
      (FileWatcher.mk ["a"] [] []).path2 ≠ (["a"] : FPath) ∧
      (FileWatcher.mk ["a"] [] []).filez ≠ pollScan fsC1 ["a"] := by
  decide

/-- Claim C1 amended: the convergence wait blocks exactly until the
acknowledged path differs from the captured old path (not necessarily until
it equals the new target); when a full poll cycle completes for a target
that differs from the old path, the wait may exit and the state it then
exposes acknowledges that target and carries that target directory's sorted
listing. -/
theorem C1_wait_amended (fs : Fs) (old : FPath) (s : FileWatcher) :
    (waitExits old s = true ↔ s.path2 ≠ old) ∧
      (s.path ≠ old →
        waitExits old (pollCycle fs s) = true ∧
          (pollCycle fs s).path2 = s.path ∧
          (pollCycle fs s).filez = pollScan fs s.path) := by
  constructor
  · exact bne_iff_ne
  · intro hne
    refine ⟨?_, rfl, rfl⟩
    exact bne_iff_ne.mpr hne

/-- Claim C1 amended, witness: one completed poll cycle for target `a` after
an ascend from old path `a/b`. -/
theorem C1_wait_amended_witness :
    waitExits ["a", "b"] (pollCycle fsC1 (FileWatcher.mk ["a"] [] [])) = true ∧
      (pollCycle fsC1 (FileWatcher.mk ["a"] [] [])).path2 = ["a"] ∧
      (pollCycle fsC1 (FileWatcher.mk ["a"] [] [])).filez = pollScan fsC1 ["a"] :=
  (C1_wait_amended fsC1 ["a", "b"] (FileWatcher.mk ["a"] [] [])).2 (by decide)

/-- Claim C2 counterexample: the publish is not a single atomic transaction.
The state between the two critical sections of one poll cycle is observable
by the UI loop (each of its reads takes one lock), and in it the newly
scanned snapshot is already visible while the acknowledged path is still the
previous one — exactly the pairing the claim rules out. -/
theorem C2_publish_counterexample :
    pollBegin fsC2 sC2 ∈ pollObservations fsC2 sC2 ∧
      (pollBegin fsC2 sC2).filez = pollScan fsC2 sC2.path ∧
      (pollBegin fsC2 sC2).path2 = sC2.path2 ∧
      sC2.path2 ≠ sC2.path ∧
      sC2.filez ≠ pollScan fsC2 sC2.path := by
  decide

/-- Claim C2 amended: the publish is two separate atomic single-field writes,
snapshot first, acknowledged path second.  A reader may therefore observe
the new snapshot still paired with the previous acknowledged path, but every
observation is one of exactly three whole-field-consistent states, so a
reader never observes the new acknowledged path paired with the previous
snapshot, and never a torn field. -/
theorem C2_publish_amended (fs : Fs) (s t : FileWatcher)
    (ht : t ∈ pollObservations fs s) :
    (t.filez = s.filez ∧ t.path2 = s.path2) ∨
      (t.filez = pollScan fs s.path ∧ t.path2 = s.path2) ∨
      (t.filez = pollScan fs s.path ∧ t.path2 = s.path) := by
  simp only [pollObservations, List.mem_cons, List.not_mem_nil, or_false] at ht
  rcases ht with h | h | h
  · subst h
    exact Or.inl ⟨rfl, rfl⟩
  · subst h
    exact Or.inr (Or.inl ⟨rfl, rfl⟩)
  · subst h
    exact Or.inr (Or.inr ⟨rfl, rfl⟩)

/-- Claim C2 amended, witness: the mid-publish observation of `sC2`. -/
theorem C2_publish_amended_witness :
    ((pollBegin fsC2 sC2).filez = sC2.filez ∧ (pollBegin fsC2 sC2).path2 = sC2.path2) ∨
      ((pollBegin fsC2 sC2).filez = pollScan fsC2 sC2.path ∧
        (pollBegin fsC2 sC2).path2 = sC2.path2) ∨
      ((pollBegin fsC2 sC2).filez = pollScan fsC2 sC2.path ∧
        (pollBegin fsC2 sC2).path2 = sC2.path) :=
  C2_publish_amended fsC2 sC2 (pollBegin fsC2 sC2) (by simp [pollObservations])

/-- Claim C5 counterexample: when the entry list is empty the render pass
does not set the selection to 0 — the clamp at src/main.rs:334 is guarded by
`filez.len() > 0` and leaves the selection untouched, here at 5. -/
theorem C5_clamp_counterexample :
    renderClamp 5 0 = 5 ∧ renderClamp 5 0 ≠ 0 := by
  decide

/-- Claim C5 amended: on every render pass, when the entry list is nonempty
the selection is clamped into the range 0 to length - 1 (in particular a
selection at or past the length becomes length - 1); when the entry list is
empty the selection is left unchanged, not set to 0. -/
theorem C5_clamp_amended (selected : Int) (len : Nat) :
    (0 < len →
      ((len : Int) ≤ selected → renderClamp selected len = (len : Int) - 1) ∧
        0 ≤ renderClamp selected len ∧ renderClamp selected len ≤ (len : Int) - 1) ∧
      (len = 0 → renderClamp selected len = selected) := by
  unfold renderClamp i32Clamp
  constructor
  · intro hlen
    rw [if_pos hlen]
    refine ⟨fun hsel => ?_, ?_, ?_⟩ <;> split_ifs <;> omega
  · intro hlen
    subst hlen
    simp

/-- Claim C5 amended, witness: selection 7 against a 3-entry listing clamps
to 2; selection 7 against an empty listing stays 7. -/
theorem C5_clamp_amended_witness :
    renderClamp 7 3 = 2 ∧ renderClamp 7 0 = 7 :=
  ⟨((C5_clamp_amended 7 3).1 (by decide)).1 (by decide),
    (C5_clamp_amended 7 0).2 rfl⟩

/-- Claim C6: the Enter handler evaluated at the failing inputs.  First
conjunct: the listing is empty (any empty or not-yet-scanned directory) and
the selection is exactly what the render-pass clamp of src/main.rs:334
produced for an empty listing, yet `filez()[selected]` is out of bounds:
the process panics.  Second conjunct: the listing re-read at action time
shrank to one entry after the clamp had allowed selection 1 against the
two-entry render-time listing; again out of bounds. -/
theorem C6_enter_crash :
    (enterAction "linux" (FileWatcher.mk ["a"] ["a"] []) (renderClamp 0 0)).1 =
        EnterOutcome.crash ∧
      (enterAction "linux" (FileWatcher.mk ["a"] ["a"] [entryFile1])
          (renderClamp 1 2)).1 = EnterOutcome.crash := by
  decide

/-- Claim C7 counterexample: descending with no saved history entry does not
always initialize the view to selected = scroll = 0.  The fallback scans the
new listing for an entry named like the directory just left (here the user
came from `root`, and the new directory contains an entry also named
`root` at index 1), so the view becomes {1, 1}. -/
theorem C7_descend_counterexample :
    resolveView histEmpty ["root", "dirA"] [entryDirB, entryRootName] "root" =
        View.mk 1 1 ∧
      View.mk 1 1 ≠ View.mk 0 0 := by
  decide

/-- Claim C7 amended: on a history miss the new view comes from the scan
fallback: selected = scroll = the index of the first entry of the new
listing whose name equals the old path's final component, and {0, 0} exactly
when no entry matches. -/
theorem C7_descend_amended (h : Hist) (newPath : FPath) (filez : List FileStat)
    (oldName : String) (hmiss : h newPath = none) :
    resolveView h newPath filez oldName = scanFallback filez oldName ∧
      (filez.findIdx? (fun f => f.file_name == oldName) = none →
        resolveView h newPath filez oldName = View.mk 0 0) ∧
      (∀ i, filez.findIdx? (fun f => f.file_name == oldName) = some i →
        resolveView h newPath filez oldName = View.mk i i) := by
  refine ⟨by simp [resolveView, hmiss], ?_, ?_⟩
  · intro hnone
    simp [resolveView, hmiss, scanFallback, hnone]
  · intro i hi
    simp [resolveView, hmiss, scanFallback, hi]

/-- Claim C7 amended, witness: empty history and empty listing give the
{0, 0} fallback. -/
theorem C7_descend_amended_witness :
    resolveView histEmpty (["a"] : FPath) [] "z" = View.mk 0 0 :=
  (C7_descend_amended histEmpty ["a"] [] "z" rfl).2.1 rfl

/-- Claim C8: history round-trip — saving a view under a path and looking
that path up returns exactly that view — and every render pass saves its
resulting view into the history under the displayed path, overwriting
whatever was stored there. -/
theorem C8_history_roundtrip (h : Hist) (p : FPath) (v : View) (maxY : Int)
    (filez : List FileStat) (q : FPath) (selected scroll : Int) :
    histInsert h p v p = some v ∧
      (renderPass maxY filez q selected scroll h).2.2 q =
        some (View.mk (renderPass maxY filez q selected scroll h).1
          (renderPass maxY filez q selected scroll h).2.1) := by
  constructor
  · simp [histInsert]
  · simp [renderPass, histInsert]

/-- Claim C9 counterexample: opening a selected non-directory entry does not
delegate to the system launcher on every platform — when the compile-time OS
is not windows nothing is spawned at all (while the shared state is indeed
left unchanged). -/
theorem C9_open_counterexample :
    (enterAction "linux" sC9 0).1 = EnterOutcome.opened none ∧
      (enterAction "linux" sC9 0).2 = sC9 := by
  decide

/-- Claim C9 amended: opening a selected non-directory entry changes no
field of the shared state on any platform, and delegates to the system
launcher (spawning `explorer` with the entry's path) exactly when the
compile-time OS is windows; on every other platform nothing is spawned. -/
theorem C9_open_amended (os : String) (s : FileWatcher) (selected : Int)
    (f : FileStat) (hidx : indexFilez s.filez selected = some f)
    (hdir : f.is_dir = false) :
    (enterAction os s selected).2 = s ∧
      (os = "windows" →
        (enterAction os s selected).1 =
          EnterOutcome.opened (some (Launched.mk "explorer" f.path))) ∧
      (os ≠ "windows" → (enterAction os s selected).1 = EnterOutcome.opened none) := by
  unfold enterAction
  rw [hidx]
  simp only [hdir, Bool.false_eq_true, if_false]
  refine ⟨trivial, ?_, ?_⟩
  · intro hos
    simp [hos]
  · intro hos
    simp [hos]

/-- Claim C9 amended, witness: on windows the selected file spawns
`explorer /root/file1.txt` and the shared state is unchanged. -/
theorem C9_open_amended_witness :
    (enterAction "windows" sC9 0).2 = sC9 ∧
      (enterAction "windows" sC9 0).1 =
        EnterOutcome.opened (some (Launched.mk "explorer" "/root/file1.txt")) := by
  have h := C9_open_amended "windows" sC9 0 entryFile1 (by decide) (by decide)
  exact ⟨h.1, h.2.1 rfl⟩

/-- Claim C10: the startup state has the empty acknowledged path and the
empty listing; UI-side target-path updates (the only other writer) leave
both untouched, so they keep those values until the poller's first publish;
and a convergence wait from any nonempty old path exits immediately on the
startup state, where the readable listing is empty. -/
theorem C10_startup (arg : Option FPath) (cwd : FPath) (old : FPath)
    (g : FPath → FPath) (hold : old ≠ []) :
    (FileWatcher.new arg cwd).path2 = [] ∧
      (FileWatcher.new arg cwd).filez = [] ∧
      ((FileWatcher.new arg cwd).set_path g).path2 = [] ∧
      ((FileWatcher.new arg cwd).set_path g).filez = [] ∧
      waitExits old (FileWatcher.new arg cwd) = true := by
  refine ⟨rfl, rfl, rfl, rfl, ?_⟩
  show (([] : FPath) != old) = true
  exact bne_iff_ne.mpr (Ne.symm hold)

/-- Claim C10 witness: no command-line argument, current directory `w`, old
path `a`. -/
theorem C10_startup_witness :
    (FileWatcher.new none ["w"]).path2 = [] ∧
      (FileWatcher.new none ["w"]).filez = [] ∧
      ((FileWatcher.new none ["w"]).set_path (fun p => p.dropLast)).path2 = [] ∧
      ((FileWatcher.new none ["w"]).set_path (fun p => p.dropLast)).filez = [] ∧
      waitExits ["a"] (FileWatcher.new none ["w"]) = true :=
  C10_startup none ["w"] ["a"] (fun p => p.dropLast) (by decide)

end Filez
